import Mathlib

/-!
Verification of the tool access-control and model-routing layer of the
examples corpus: the `CustomModelProvider` resolvers
(`examples/mcp/tool_filtering_example/main.py`,
`examples/mcp/tool_filtering_example/dynamic_config_filter.py`,
`examples/basic/stream_items.py`) and the tool-filter predicates
(`context_aware_filter`, `custom_filter`, and the static blocked-list
filter bound via `create_static_tool_filter`).

Python values of type `str | None` are embedded as `Option String`;
Python truthiness of such a value (`None` and `""` are falsy) is made
explicit wherever the source relies on it (`x or y`, `if x and y`).
-/

namespace ToolFiltering

/-- The slice of an `agents.Agent` visible to a filter decision: its name
(the identity used for role dispatch) plus its instructions, carried so
that noninterference in the agent name alone is a real statement. -/
structure AgentIdent where
  name : String
  instructions : String
  deriving Repr, DecidableEq

/-- The `ToolFilterContext` handed to a dynamic tool filter: the calling
agent, the server name, and any further request-scoped data (embedded as
an association list so that decisions can be shown not to depend on it). -/
structure ToolFilterContext where
  agent : AgentIdent
  server_name : String
  run_context_data : List (String × String)
  deriving Repr, DecidableEq

/-- An MCP tool descriptor: identity is `name`; `description` stands for
the rest of the descriptor payload an actual tool carries. -/
structure ToolDescriptor where
  name : String
  description : String
  deriving Repr, DecidableEq

/-- Python `s.startswith(pre)`: `pre` is a prefix of `s`, computed on the
character sequences so that concrete instances evaluate in the kernel. -/
def pyStartsWith (s pre : String) : Bool :=
  pre.data.isPrefixOf s.data

/-- `context_aware_filter` from
`examples/mcp/tool_filtering_example/dynamic_config_filter.py` (lines
43-56): role dispatch on `context.agent.name`; `ReadOnlyAgent` gets
tools starting with `read_` or `list_`, `AdminAgent` gets everything,
`BasicAgent` gets exactly `read_file`/`list_directory`, and every other
agent name falls through to `return False`. -/
def context_aware_filter (context : ToolFilterContext) (tool : ToolDescriptor) : Bool :=
  let agent_name := context.agent.name
  if agent_name = "ReadOnlyAgent" then
    pyStartsWith tool.name "read_" || pyStartsWith tool.name "list_"
  else if agent_name = "AdminAgent" then
    true
  else if agent_name = "BasicAgent" then
    ["read_file", "list_directory"].contains tool.name
  else
    false

/-- `custom_filter` from `examples/mcp/tool_filtering_example/main.py`
(lines 196-199): allows exactly the tools whose name starts with
`read_` or `list_`; the context parameter is taken but never read. -/
def custom_filter (_context : ToolFilterContext) (tool : ToolDescriptor) : Bool :=
  pyStartsWith tool.name "read_" || pyStartsWith tool.name "list_"

/-- Modelled from the spec: the gate (`ToolAccessGate.resolve`, spec
section 4.2) that applies a bound filter to a fetched catalog lives in the
third-party `agents.mcp` library, not under `src/`; the spec states it
"applies the rule to every descriptor in the catalog, preserving order,
producing the filtered list". -/
def resolveCatalog (pred : ToolDescriptor → Bool) (catalog : List ToolDescriptor) :
    List ToolDescriptor :=
  catalog.filter pred

/-- Modelled from the spec: `create_static_tool_filter` with
`blocked_tool_names` is imported from the `agents.mcp` library, not under
`src/`; the spec (section 4.1) states "`Static{blocked}`: descriptor
passes iff its name is **not** a member of `blocked`". -/
def staticBlockedFilter (blocked : List String) (tool : ToolDescriptor) : Bool :=
  !(blocked.contains tool.name)

/-- The four-tool filesystem catalog of the spec scenarios (sections
8.10-8.11), in source order. -/
def demoCatalog : List ToolDescriptor :=
  [ { name := "read_file", description := "Read a file" },
    { name := "list_directory", description := "List a directory" },
    { name := "write_file", description := "Write a file" },
    { name := "delete_file", description := "Delete a file" } ]

/-- An OpenAI client handle as constructed by `AsyncOpenAI(base_url=...,
api_key=...)`: the configuration it closes over. -/
structure OpenAIClient where
  base_url : String
  api_key : String
  deriving Repr, DecidableEq

/-- The value returned by `OpenAIChatCompletionsModel(model=...,
openai_client=...)`: `openai_client = none` is the overload without a
client, which uses the library default transport. -/
structure ChatCompletionsModel where
  model : String
  openai_client : Option OpenAIClient
  deriving Repr, DecidableEq

/-- Python truthiness of a `str | None` value: `None` and `""` are falsy. -/
def strTruthy : Option String → Bool
  | none => false
  | some s => s != ""

/-- Python `x or d` for `x : str | None`, `d : str`: yields `d` when `x`
is falsy (`None` or `""`), else the string in `x`. -/
def pyOrStr (x : Option String) (d : String) : String :=
  match x with
  | none => d
  | some s => if s = "" then d else s

/-- The state of a `CustomModelProvider` from
`examples/mcp/tool_filtering_example/main.py` (lines 35-54) /
`dynamic_config_filter.py` (lines 24-41) after `__init__`: the three
stored arguments plus the computed `client` field. -/
structure CustomModelProvider where
  base_url : Option String
  api_key : Option String
  default_model : String
  client : Option OpenAIClient
  deriving Repr, DecidableEq

/-- `CustomModelProvider.__init__`: stores the arguments and sets
`client` to `AsyncOpenAI(base_url=base_url, api_key=api_key)` when
`base_url and api_key` is truthy, else to `None`. -/
def CustomModelProvider.init (base_url : Option String) (api_key : Option String)
    (default_model : String) : CustomModelProvider :=
  let client : Option OpenAIClient :=
    match base_url, api_key with
    | some b, some k =>
        if b != "" && k != "" then some { base_url := b, api_key := k } else none
    | _, _ => none
  { base_url := base_url, api_key := api_key, default_model := default_model,
    client := client }

/-- `CustomModelProvider.get_model` (main.py lines 49-54): binds
`model_name or self.default_model` as the model id; uses `self.client`
when set, else the client-less overload (library default provider). -/
def CustomModelProvider.get_model (self : CustomModelProvider)
    (model_name : Option String) : ChatCompletionsModel :=
  let model_to_use := pyOrStr model_name self.default_model
  match self.client with
  | some c => { model := model_to_use, openai_client := some c }
  | none => { model := model_to_use, openai_client := none }

/-- `CustomModelProvider.get_model` with the resolver state passed
explicitly and returned: the method body assigns only the local
`model_to_use` and only reads `self`, so the state it finishes with is
the state it started from, made visible for the frame theorems. -/
def CustomModelProvider.get_model_exec (self : CustomModelProvider)
    (model_name : Option String) : ChatCompletionsModel × CustomModelProvider :=
  let model_to_use := pyOrStr model_name self.default_model
  match self.client with
  | some c => ({ model := model_to_use, openai_client := some c }, self)
  | none => ({ model := model_to_use, openai_client := none }, self)

/-- A sequence of `get_model` calls, each running on the resolver state
the previous call finished with. -/
def CustomModelProvider.get_model_iter (self : CustomModelProvider) :
    List (Option String) → CustomModelProvider
  | [] => self
  | n :: ns => CustomModelProvider.get_model_iter (self.get_model_exec n).2 ns

/-- `CustomModelProvider.get_model` from `examples/basic/stream_items.py`
(lines 54-61): always uses the fixed module-level `client` and binds
`model_name or MODEL_NAME` as the model id. -/
def stream_items_get_model (client : OpenAIClient) (MODEL_NAME : Option String)
    (model_name : Option String) : ChatCompletionsModel :=
  { model := pyOrStr model_name (MODEL_NAME.getD ""),
    openai_client := some client }

/-- The configuration error taxonomy of spec section 7 relevant here. -/
inductive ConfigError where
  | MissingCredential
  deriving Repr, DecidableEq

/-- Modelled from the spec: the `ModelProviderResolver.resolve` contract
of spec section 4.3 — "If the resolver has no credential configured, it
signals a configuration error (`MissingCredential`) rather than
attempting a network call". This is the specified behavior to compare the
source `get_model` against; it is not code of the repository. -/
def resolveSpecContract (r : CustomModelProvider) (requested : Option String) :
    Except ConfigError ChatCompletionsModel :=
  if r.api_key = none then Except.error ConfigError.MissingCredential
  else Except.ok (r.get_model requested)

/-- The world a filter evaluation runs in, for the purity theorems: the
context and descriptor it was handed plus the ambient module globals. -/
structure FilterWorld where
  filter_context : ToolFilterContext
  tool : ToolDescriptor
  module_globals : List (String × String)
  deriving Repr, DecidableEq

/-- `context_aware_filter` with the evaluation world passed explicitly
and returned: the body assigns only the local `agent_name` and performs
no write to the context, the descriptor, or any global, so each branch
returns the world unchanged. -/
def context_aware_filter_exec (w : FilterWorld) : Bool × FilterWorld :=
  let agent_name := w.filter_context.agent.name
  if agent_name = "ReadOnlyAgent" then
    (pyStartsWith w.tool.name "read_" || pyStartsWith w.tool.name "list_", w)
  else if agent_name = "AdminAgent" then
    (true, w)
  else if agent_name = "BasicAgent" then
    (["read_file", "list_directory"].contains w.tool.name, w)
  else
    (false, w)

/-- `custom_filter` with the evaluation world passed explicitly and
returned: the body is a single read-only return expression. -/
def custom_filter_exec (w : FilterWorld) : Bool × FilterWorld :=
  (pyStartsWith w.tool.name "read_" || pyStartsWith w.tool.name "list_", w)

/-- C1 counterexample: constructed with no credential (`api_key = None`),
the source resolver does not fail — `get_model "claude-3-sonnet"` returns
a model bound to the library default transport (`openai_client = none`,
the default OpenAI provider), exactly where the spec contract signals
`MissingCredential`. -/
theorem get_model_no_credential_counterexample :
    (CustomModelProvider.init none none "gpt-4o").get_model (some "claude-3-sonnet")
      = { model := "claude-3-sonnet", openai_client := none } ∧
    resolveSpecContract (CustomModelProvider.init none none "gpt-4o")
        (some "claude-3-sonnet")
      = Except.error ConfigError.MissingCredential := by
  constructor <;> rfl

/-- C1 amended: a resolver constructed with no credential never signals
an error; `get_model` succeeds for every requested name and silently
falls back to the client-less model constructor, i.e. to the library
default OpenAI provider rather than the configured backend. -/
theorem get_model_no_credential_falls_back (base_url : Option String)
    (default_model : String) (model_name : Option String) :
    (CustomModelProvider.init base_url none default_model).get_model model_name
      = { model := pyOrStr model_name default_model, openai_client := none } := by
  cases base_url <;> rfl

/-- C2: with a configured default model id, a present (nonempty)
requested name becomes the returned model id, and an absent requested
name yields the configured default. -/
theorem get_model_model_id (r : CustomModelProvider) (s : String) :
    (r.get_model none).model = r.default_model ∧
    (s ≠ "" → (r.get_model (some s)).model = s) := by
  constructor
  · cases h : r.client <;> simp [CustomModelProvider.get_model, pyOrStr, h]
  · intro hs
    cases h : r.client <;> simp [CustomModelProvider.get_model, pyOrStr, h, hs]

/-- C2 witness: with default `"gpt-4o"`, requesting nothing yields
`"gpt-4o"` and requesting `"claude-3-sonnet"` yields
`"claude-3-sonnet"`. -/
theorem get_model_model_id_witness :
    ((CustomModelProvider.init (some "https://api.example.com") (some "sk-test")
        "gpt-4o").get_model none).model = "gpt-4o" ∧
    ("claude-3-sonnet" ≠ "" →
      ((CustomModelProvider.init (some "https://api.example.com") (some "sk-test")
          "gpt-4o").get_model (some "claude-3-sonnet")).model = "claude-3-sonnet") := by
  have h := get_model_model_id
    (CustomModelProvider.init (some "https://api.example.com") (some "sk-test") "gpt-4o")
    "claude-3-sonnet"
  exact ⟨h.1, h.2⟩

/-- C3: the client (credential and base URL) of the model returned by
`get_model` is always the resolver's single configured client, whatever
the requested name; likewise the `stream_items` provider always returns
the fixed module-level client. Only the model id varies with the
request. -/
theorem get_model_client_fixed (r : CustomModelProvider)
    (n m : Option String) (c : OpenAIClient) (d : Option String) :
    (r.get_model n).openai_client = r.client ∧
    (r.get_model n).openai_client = (r.get_model m).openai_client ∧
    (stream_items_get_model c d n).openai_client = some c := by
  refine ⟨?_, ?_, rfl⟩ <;>
    cases h : r.client <;> simp [CustomModelProvider.get_model, h]

/-- C4: the role-based dynamic filter is fail-closed — any agent name
other than the three known roles (including the empty name) is denied
every tool; `ReadOnlyAgent` gets exactly the `read_`/`list_` prefixed
tools, `AdminAgent` gets everything, `BasicAgent` gets exactly
`read_file` and `list_directory`. -/
theorem context_aware_filter_spec (ctx : ToolFilterContext) (tool : ToolDescriptor) :
    (ctx.agent.name ≠ "ReadOnlyAgent" → ctx.agent.name ≠ "AdminAgent" →
      ctx.agent.name ≠ "BasicAgent" → context_aware_filter ctx tool = false) ∧
    (ctx.agent.name = "ReadOnlyAgent" →
      context_aware_filter ctx tool
        = (pyStartsWith tool.name "read_" || pyStartsWith tool.name "list_")) ∧
    (ctx.agent.name = "AdminAgent" → context_aware_filter ctx tool = true) ∧
    (ctx.agent.name = "BasicAgent" →
      (context_aware_filter ctx tool = true ↔
        tool.name ∈ ["read_file", "list_directory"])) := by
  refine ⟨fun h1 h2 h3 => ?_, fun h => ?_, fun h => ?_, fun h => ?_⟩
  · simp [context_aware_filter, h1, h2, h3]
  · simp [context_aware_filter, h]
  · simp [context_aware_filter, h]
  · have hro : ctx.agent.name ≠ "ReadOnlyAgent" := by simp [h]
    have had : ctx.agent.name ≠ "AdminAgent" := by simp [h]
    simp [context_aware_filter, hro, had, h]

/-- C4 witness: an unknown agent name (`"EvilAgent"`) is denied
`read_file`; the three known roles behave as stated on `read_file` and
`write_file`. -/
theorem context_aware_filter_spec_witness :
    context_aware_filter
      { agent := { name := "EvilAgent", instructions := "" },
        server_name := "fs", run_context_data := [] }
      { name := "read_file", description := "" } = false ∧
    context_aware_filter
      { agent := { name := "ReadOnlyAgent", instructions := "" },
        server_name := "fs", run_context_data := [] }
      { name := "write_file", description := "" }
      = (pyStartsWith "write_file" "read_" || pyStartsWith "write_file" "list_") ∧
    context_aware_filter
      { agent := { name := "AdminAgent", instructions := "" },
        server_name := "fs", run_context_data := [] }
      { name := "delete_file", description := "" } = true ∧
    (context_aware_filter
      { agent := { name := "BasicAgent", instructions := "" },
        server_name := "fs", run_context_data := [] }
      { name := "read_file", description := "" } = true ↔
      "read_file" ∈ ["read_file", "list_directory"]) := by
  refine ⟨?_, ?_, ?_, ?_⟩
  · exact (context_aware_filter_spec
      { agent := { name := "EvilAgent", instructions := "" },
        server_name := "fs", run_context_data := [] }
      { name := "read_file", description := "" }).1
      (by decide) (by decide) (by decide)
  · exact (context_aware_filter_spec
      { agent := { name := "ReadOnlyAgent", instructions := "" },
        server_name := "fs", run_context_data := [] }
      { name := "write_file", description := "" }).2.1 rfl
  · exact (context_aware_filter_spec
      { agent := { name := "AdminAgent", instructions := "" },
        server_name := "fs", run_context_data := [] }
      { name := "delete_file", description := "" }).2.2.1 rfl
  · exact (context_aware_filter_spec
      { agent := { name := "BasicAgent", instructions := "" },
        server_name := "fs", run_context_data := [] }
      { name := "read_file", description := "" }).2.2.2 rfl

/-- C5: under a static blocked-list rule a descriptor passes iff its
name is not in the blocked set; the resolved catalog is an
order-preserving sublist of the source containing exactly the unblocked
descriptors; on the four-tool demo catalog with `delete_file` blocked
the result is `[read_file, list_directory, write_file]`. -/
theorem static_blocked_filter_spec (blocked : List String)
    (catalog : List ToolDescriptor) (tool : ToolDescriptor) :
    (staticBlockedFilter blocked tool = true ↔ ¬ tool.name ∈ blocked) ∧
    (resolveCatalog (staticBlockedFilter blocked) catalog).Sublist catalog ∧
    (tool ∈ resolveCatalog (staticBlockedFilter blocked) catalog ↔
      tool ∈ catalog ∧ ¬ tool.name ∈ blocked) ∧
    resolveCatalog (staticBlockedFilter ["delete_file"]) demoCatalog
      = [ { name := "read_file", description := "Read a file" },
          { name := "list_directory", description := "List a directory" },
          { name := "write_file", description := "Write a file" } ] := by
  refine ⟨?_, ?_, ?_, ?_⟩
  · simp [staticBlockedFilter]
  · exact List.filter_sublist catalog
  · simp [resolveCatalog, List.mem_filter, staticBlockedFilter]
  · rfl

/-- C6: the dynamic `custom_filter` allows a tool iff its name starts
with `read_` or `list_`, independently of the context it is handed; on
the four-tool demo catalog the resolved catalog is
`[read_file, list_directory]`. -/
theorem custom_filter_spec (ctx : ToolFilterContext) (tool : ToolDescriptor) :
    (custom_filter ctx tool = true ↔
      (pyStartsWith tool.name "read_" = true ∨ pyStartsWith tool.name "list_" = true)) ∧
    resolveCatalog (custom_filter ctx) demoCatalog
      = [ { name := "read_file", description := "Read a file" },
          { name := "list_directory", description := "List a directory" } ] := by
  refine ⟨?_, ?_⟩
  · simp [custom_filter]
  · rfl

/-- C7: filter evaluation is deterministic — equal (context, descriptor)
pairs give equal decisions for both filters — and side-effect free: run
in an explicit evaluation world, each filter returns the world (context,
descriptor, and module globals) unchanged, and its decision is the one
the pure function computes. -/
theorem filters_deterministic_and_pure
    (c1 c2 : ToolFilterContext) (t1 t2 : ToolDescriptor) (w : FilterWorld) :
    (c1 = c2 → t1 = t2 →
      context_aware_filter c1 t1 = context_aware_filter c2 t2 ∧
      custom_filter c1 t1 = custom_filter c2 t2) ∧
    (context_aware_filter_exec w).2 = w ∧
    (custom_filter_exec w).2 = w ∧
    (context_aware_filter_exec w).1 = context_aware_filter w.filter_context w.tool ∧
    (custom_filter_exec w).1 = custom_filter w.filter_context w.tool := by
  refine ⟨fun hc ht => by rw [hc, ht]; exact ⟨rfl, rfl⟩, ?_, rfl, ?_, rfl⟩
  · simp only [context_aware_filter_exec]
    split
    · rfl
    · split
      · rfl
      · split <;> rfl
  · simp only [context_aware_filter_exec, context_aware_filter]
    split
    · rfl
    · split
      · rfl
      · split <;> rfl

/-- C7 witness: at a concrete world (ReadOnlyAgent asking about
`read_file`), repeated evaluation agrees and the world is unchanged. -/
theorem filters_deterministic_and_pure_witness :
    (context_aware_filter
        { agent := { name := "ReadOnlyAgent", instructions := "" },
          server_name := "fs", run_context_data := [("k", "v")] }
        { name := "read_file", description := "" }
      = context_aware_filter
        { agent := { name := "ReadOnlyAgent", instructions := "" },
          server_name := "fs", run_context_data := [("k", "v")] }
        { name := "read_file", description := "" } ∧
     custom_filter
        { agent := { name := "ReadOnlyAgent", instructions := "" },
          server_name := "fs", run_context_data := [("k", "v")] }
        { name := "read_file", description := "" }
      = custom_filter
        { agent := { name := "ReadOnlyAgent", instructions := "" },
          server_name := "fs", run_context_data := [("k", "v")] }
        { name := "read_file", description := "" }) ∧
    (context_aware_filter_exec
        { filter_context :=
            { agent := { name := "ReadOnlyAgent", instructions := "" },
              server_name := "fs", run_context_data := [("k", "v")] },
          tool := { name := "read_file", description := "" },
          module_globals := [("BASE_URL", "https://api.example.com")] }).2
      = { filter_context :=
            { agent := { name := "ReadOnlyAgent", instructions := "" },
              server_name := "fs", run_context_data := [("k", "v")] },
          tool := { name := "read_file", description := "" },
          module_globals := [("BASE_URL", "https://api.example.com")] } := by
  have h := filters_deterministic_and_pure
    { agent := { name := "ReadOnlyAgent", instructions := "" },
      server_name := "fs", run_context_data := [("k", "v")] }
    { agent := { name := "ReadOnlyAgent", instructions := "" },
      server_name := "fs", run_context_data := [("k", "v")] }
    { name := "read_file", description := "" }
    { name := "read_file", description := "" }
    { filter_context :=
        { agent := { name := "ReadOnlyAgent", instructions := "" },
          server_name := "fs", run_context_data := [("k", "v")] },
      tool := { name := "read_file", description := "" },
      module_globals := [("BASE_URL", "https://api.example.com")] }
  exact ⟨h.1 rfl rfl, h.2.1⟩

/-- C8: the resolver is immutable — a `get_model` call returns the
resolver state it started from, every configuration field included, its
result is the pure `get_model` value, and any sequence of calls leaves
the state identical to the initial one. -/
theorem get_model_preserves_resolver (r : CustomModelProvider)
    (n : Option String) (ns : List (Option String)) :
    (r.get_model_exec n).2 = r ∧
    (r.get_model_exec n).2.api_key = r.api_key ∧
    (r.get_model_exec n).2.base_url = r.base_url ∧
    (r.get_model_exec n).2.default_model = r.default_model ∧
    (r.get_model_exec n).2.client = r.client ∧
    (r.get_model_exec n).1 = r.get_model n ∧
    r.get_model_iter ns = r := by
  have hexec : ∀ (s : CustomModelProvider) (m : Option String),
      (s.get_model_exec m).2 = s := by
    intro s m
    unfold CustomModelProvider.get_model_exec
    split <;> rfl
  have hiter : ∀ (ms : List (Option String)) (s : CustomModelProvider),
      s.get_model_iter ms = s := by
    intro ms
    induction ms with
    | nil => intro s; rfl
    | cons m ms ih =>
        intro s
        rw [CustomModelProvider.get_model_iter, hexec s m, ih s]
  refine ⟨hexec r n, ?_, ?_, ?_, ?_, ?_, hiter ns r⟩
  · rw [hexec r n]
  · rw [hexec r n]
  · rw [hexec r n]
  · rw [hexec r n]
  · simp only [CustomModelProvider.get_model_exec, CustomModelProvider.get_model]
    split <;> rfl

/-- C9: a requested model name that is the empty string is falsy in the
source's `model_name or self.default_model`, so `get_model ""` returns
the configured default model id, not the empty string; the same holds
for the `stream_items` provider. -/
theorem get_model_empty_name_uses_default (r : CustomModelProvider)
    (c : OpenAIClient) (d : Option String) :
    (r.get_model (some "")).model = r.default_model ∧
    (r.get_model (some "")).model = (r.get_model none).model ∧
    (stream_items_get_model c d (some "")).model
      = (stream_items_get_model c d none).model := by
  refine ⟨?_, ?_, rfl⟩ <;>
    cases h : r.client <;> simp [CustomModelProvider.get_model, pyOrStr, h]

/-- C10: noninterference — the role-based filter's decision is a
function of the agent name and tool name alone (any two contexts
agreeing on the agent name, and any two descriptors agreeing on the tool
name, get the same decision), and `custom_filter` is independent of the
context entirely. -/
theorem filter_noninterference
    (c1 c2 : ToolFilterContext) (t1 t2 : ToolDescriptor) :
    (c1.agent.name = c2.agent.name → t1.name = t2.name →
      context_aware_filter c1 t1 = context_aware_filter c2 t2) ∧
    (t1.name = t2.name → custom_filter c1 t1 = custom_filter c2 t2) ∧
    custom_filter c1 t1 = custom_filter c2 t1 := by
  refine ⟨fun hc ht => ?_, fun ht => ?_, rfl⟩
  · unfold context_aware_filter
    rw [hc, ht]
  · unfold custom_filter
    rw [ht]

/-- C10 witness: two contexts sharing only the agent name (different
instructions, server, and request data) and two descriptors sharing only
the tool name get the same decisions. -/
theorem filter_noninterference_witness :
    (context_aware_filter
        { agent := { name := "ReadOnlyAgent", instructions := "a" },
          server_name := "fs1", run_context_data := [("k", "v")] }
        { name := "read_file", description := "d1" }
      = context_aware_filter
        { agent := { name := "ReadOnlyAgent", instructions := "b" },
          server_name := "fs2", run_context_data := [] }
        { name := "read_file", description := "d2" }) ∧
    (custom_filter
        { agent := { name := "ReadOnlyAgent", instructions := "a" },
          server_name := "fs1", run_context_data := [("k", "v")] }
        { name := "read_file", description := "d1" }
      = custom_filter
        { agent := { name := "ReadOnlyAgent", instructions := "b" },
          server_name := "fs2", run_context_data := [] }
        { name := "read_file", description := "d2" }) := by
  have h := filter_noninterference
    { agent := { name := "ReadOnlyAgent", instructions := "a" },
      server_name := "fs1", run_context_data := [("k", "v")] }
    { agent := { name := "ReadOnlyAgent", instructions := "b" },
      server_name := "fs2", run_context_data := [] }
    { name := "read_file", description := "d1" }
    { name := "read_file", description := "d2" }
  exact ⟨h.1 rfl rfl, h.2.1 rfl⟩

end ToolFiltering
